import Mathlib

/-!
Verification of the edge-density rectangular-object (phone) detector and the
answer-evaluation score invariant of the mock-interview application.

The detector source is the function detectRectangularObject in the
CameraRecorder component.  It receives an ImageData value: a pixel buffer of
4 bytes per pixel (channel order R, G, B, A, row-major) together with a width
and a height.  We model the buffer as a total function from byte index to byte
value; the detector only ever reads indices inside the buffer range, a fact
proved below as the frame-agreement (extensionality) theorems.

Machine arithmetic notes, justified where they are used:
  - the source compares Math.sqrt (gx*gx + gy*gy) > 50; since gx, gy are
    integers, this holds exactly when gx*gx + gy*gy > 2500, which is what the
    executable definition tests; the equivalence with the real square root is
    proved in lemma isEdge_iff_sqrt_gt;
  - the source computes edgeCount / (width * height) and compares against the
    decimal literals 0.02 and 0.15; we use exact rational arithmetic.  When
    width * height = 0 the source produces NaN and both comparisons are false;
    in that case edgeCount = 0 (the loops run zero iterations), and rational
    division by zero also yields 0, for which both comparisons are false as
    well, so the boolean result agrees on every input.
-/

/-- Model of the DOM ImageData value handed to the detector: a width, a
height, and the flat RGBA byte buffer, modelled as a total function from byte
index to byte value.  The byte at index (y * width + x) * 4 + c is channel c
of the pixel at column x, row y. -/
structure ImageData where
  width : ℕ
  height : ℕ
  data : ℕ → ℕ

/-- Horizontal Sobel gradient, translated from the source:
gx = -data[((y-1)*width+(x-1))*4] + data[((y-1)*width+(x+1))*4]
     - 2*data[(y*width+(x-1))*4] + 2*data[(y*width+(x+1))*4]
     - data[((y+1)*width+(x-1))*4] + data[((y+1)*width+(x+1))*4].
The loops only evaluate it at interior pixels (x, y both at least 1), where
the truncated natural subtraction below coincides with integer subtraction. -/
def gx (img : ImageData) (x y : ℕ) : ℤ :=
  -(img.data (((y - 1) * img.width + (x - 1)) * 4) : ℤ)
    + (img.data (((y - 1) * img.width + (x + 1)) * 4) : ℤ)
    - 2 * (img.data ((y * img.width + (x - 1)) * 4) : ℤ)
    + 2 * (img.data ((y * img.width + (x + 1)) * 4) : ℤ)
    - (img.data (((y + 1) * img.width + (x - 1)) * 4) : ℤ)
    + (img.data (((y + 1) * img.width + (x + 1)) * 4) : ℤ)

/-- Vertical Sobel gradient, translated from the source:
gy = -data[((y-1)*width+(x-1))*4] - 2*data[((y-1)*width+x)*4]
     - data[((y-1)*width+(x+1))*4] + data[((y+1)*width+(x-1))*4]
     + 2*data[((y+1)*width+x)*4] + data[((y+1)*width+(x+1))*4]. -/
def gy (img : ImageData) (x y : ℕ) : ℤ :=
  -(img.data (((y - 1) * img.width + (x - 1)) * 4) : ℤ)
    - 2 * (img.data (((y - 1) * img.width + x) * 4) : ℤ)
    - (img.data (((y - 1) * img.width + (x + 1)) * 4) : ℤ)
    + (img.data (((y + 1) * img.width + (x - 1)) * 4) : ℤ)
    + 2 * (img.data (((y + 1) * img.width + x) * 4) : ℤ)
    + (img.data (((y + 1) * img.width + (x + 1)) * 4) : ℤ)

/-- Squared gradient magnitude gx*gx + gy*gy (the source takes
Math.sqrt of this value before comparing with 50). -/
def magnitudeSq (img : ImageData) (x y : ℕ) : ℤ :=
  gx img x y * gx img x y + gy img x y * gy img x y

/-- The edge test of the source: magnitude > 50, i.e. Math.sqrt
(gx*gx + gy*gy) > 50, which for integer gradients is exactly
gx*gx + gy*gy > 2500 (see isEdge_iff_sqrt_gt). -/
def isEdge (img : ImageData) (x y : ℕ) : Bool :=
  decide (2500 < magnitudeSq img x y)

/-- Number of interior pixels whose edge test passes: the double loop
for (y = 1; y < height - 1; y++) for (x = 1; x < width - 1; x++)
incrementing edgeCount when the magnitude exceeds 50. -/
def edgeCount (img : ImageData) : ℕ :=
  ∑ y ∈ Finset.Ico 1 (img.height - 1),
    ∑ x ∈ Finset.Ico 1 (img.width - 1),
      if isEdge img x y then 1 else 0

/-- edgeRatio = edgeCount / (width * height), exact rational arithmetic.
When width * height = 0 the source divides 0 by 0 giving NaN, whose
comparisons are all false; rational division by zero gives 0 whose
comparisons with the positive thresholds are also false, so the final
boolean agrees. -/
def edgeRatio (img : ImageData) : ℚ :=
  (edgeCount img : ℚ) / ((img.width : ℚ) * (img.height : ℚ))

/-- The detector: return edgeRatio > 0.02 && edgeRatio < 0.15. -/
def detectRectangularObject (img : ImageData) : Bool :=
  decide (edgeRatio img > 0.02 ∧ edgeRatio img < 0.15)

/-- Red-channel accessor from the specification text: P(i, j) is the
channel-0 byte of the pixel at column i, row j. -/
def P (img : ImageData) (i j : ℕ) : ℕ :=
  img.data ((j * img.width + i) * 4)

/-- The grayscale value the loop body computes and never feeds into the
kernel: (data[idx] + data[idx + 1] + data[idx + 2]) / 3 with
idx = (y * width + x) * 4.  It reads channels 0, 1 and 2 of the center
pixel; the gradient definitions above read only channel-0 bytes. -/
def gray (img : ImageData) (x y : ℕ) : ℚ :=
  ((img.data ((y * img.width + x) * 4) : ℚ)
    + (img.data ((y * img.width + x) * 4 + 1) : ℚ)
    + (img.data ((y * img.width + x) * 4 + 2) : ℚ)) / 3

/-- Horizontal Sobel gradient as worded by the specification:
gx = -P(x-1,y-1) + P(x+1,y-1) - 2*P(x-1,y) + 2*P(x+1,y)
     - P(x-1,y+1) + P(x+1,y+1). -/
def sobelGxSpec (img : ImageData) (x y : ℕ) : ℤ :=
  -(P img (x - 1) (y - 1) : ℤ) + (P img (x + 1) (y - 1) : ℤ)
    - 2 * (P img (x - 1) y : ℤ) + 2 * (P img (x + 1) y : ℤ)
    - (P img (x - 1) (y + 1) : ℤ) + (P img (x + 1) (y + 1) : ℤ)

/-- Vertical Sobel gradient as worded by the specification:
gy = -P(x-1,y-1) - 2*P(x,y-1) - P(x+1,y-1)
     + P(x-1,y+1) + 2*P(x,y+1) + P(x+1,y+1). -/
def sobelGySpec (img : ImageData) (x y : ℕ) : ℤ :=
  -(P img (x - 1) (y - 1) : ℤ) - 2 * (P img x (y - 1) : ℤ)
    - (P img (x + 1) (y - 1) : ℤ)
    + (P img (x - 1) (y + 1) : ℤ) + 2 * (P img x (y + 1) : ℤ)
    + (P img (x + 1) (y + 1) : ℤ)

/-- Real-number gradient magnitude from the specification text:
sqrt (gx^2 + gy^2). -/
noncomputable def magnitudeSpec (img : ImageData) (x y : ℕ) : ℝ :=
  Real.sqrt ((gx img x y : ℝ) ^ 2 + (gy img x y : ℝ) ^ 2)

open Classical in

/-- Edge count as worded by the specification: the number of interior pixels
whose gradient magnitude sqrt (gx^2 + gy^2) is strictly greater than 50. -/
noncomputable def edgeCountSpec (img : ImageData) : ℕ :=
  ∑ y ∈ Finset.Ico 1 (img.height - 1),
    ∑ x ∈ Finset.Ico 1 (img.width - 1),
      if 50 < magnitudeSpec img x y then 1 else 0

/-- Edge ratio as worded by the specification: edgeCount / (W * H) over the
reals, with the full frame area as the denominator. -/
noncomputable def edgeRatioSpec (img : ImageData) : ℝ :=
  (edgeCountSpec img : ℝ) / ((img.width : ℝ) * (img.height : ℝ))

/-- A flat gray 10 by 10 frame: every pixel has R = G = B = 128 and A = 255
(byte index congruent to 3 mod 4 is the alpha channel). -/
def gray10 : ImageData :=
  ⟨10, 10, fun n => if n % 4 = 3 then 255 else 128⟩

/-- A frame with width 0 used as the degenerate-frame witness. -/
def emptyFrame : ImageData :=
  ⟨0, 5, fun n => n % 251⟩

/-- A 2 by 5 frame with a high-contrast buffer, thinner than the 3-pixel
minimum in one dimension. -/
def thin25 : ImageData :=
  ⟨2, 5, fun n => if n % 8 < 4 then 0 else 255⟩

/-- A 3 by 3 frame whose rightmost column has red 255 and every other byte 0:
byte index n belongs to pixel n / 4, whose column is n / 4 % 3. -/
def frame3 : ImageData :=
  ⟨3, 3, fun n => if n % 4 = 0 ∧ n / 4 % 3 = 2 then 255 else 0⟩

/-- Two bit-identical 4 by 4 frames whose data functions differ only beyond
the 64-byte buffer range. -/
def dupA : ImageData :=
  ⟨4, 4, fun _ => 7⟩

/-- Companion frame for the determinism witness. -/
def dupB : ImageData :=
  ⟨4, 4, fun n => if n < 64 then 7 else 9⟩

/-- A 4 by 4 frame with red 100 and zero green, blue, and alpha. -/
def redOnlyA : ImageData :=
  ⟨4, 4, fun n => if n % 4 = 0 then 100 else 0⟩

/-- A 4 by 4 frame with the same red channel as redOnlyA but different
green, blue, and alpha bytes everywhere. -/
def redOnlyB : ImageData :=
  ⟨4, 4, fun n => if n % 4 = 0 then 100 else 55⟩

/-- The state the source intends this.phoneDetected to live in. -/
structure ThisState where
  phoneDetected : Bool

/-- JavaScript member read e.phoneDetected: throws a TypeError when the
receiver is undefined (modelled as none). -/
def readPhoneDetectedProp (thisObj : Option ThisState) : Except String Bool :=
  match thisObj with
  | none => Except.error "TypeError: cannot read phoneDetected of undefined"
  | some t => Except.ok t.phoneDetected

/-- Rendering effects of one detectPhone tick: the value passed to
setPhoneDetected if called, whether the toast is shown, and the hide delay
passed to setTimeout (5000 ms when the toast is shown). -/
structure TickEffects where
  setDetectedCall : Option Bool
  showToast : Bool
  toastHideDelayMs : ℕ

/-- Transition logic of detectPhone, translated branch for branch.
JavaScript evaluates the left operand of && first and short-circuits, so
the member read this.phoneDetected is reached exactly when the first
conjunct of the tested condition is true; with a fresh result of true it is
read in the first condition, with false in the else-if condition. -/
def detectPhoneTransition (thisObj : Option ThisState) (phoneDetected : Bool) :
    Except String TickEffects :=
  if phoneDetected then do
    let prev ← readPhoneDetectedProp thisObj
    if !prev then
      Except.ok ⟨some true, true, 5000⟩
    else
      Except.ok ⟨none, false, 0⟩
  else do
    let prev ← readPhoneDetectedProp thisObj
    if prev then
      Except.ok ⟨some false, false, 0⟩
    else
      Except.ok ⟨none, false, 0⟩

/-- The value of this captured by the detectPhone arrow function in the
source: undefined, because CameraRecorder is a function component in an ES
module, not a class instance. -/
def cameraRecorderThis : Option ThisState := none

/-- One tick of detectPhone as the source actually runs it. -/
def detectPhoneTick (phoneDetected : Bool) : Except String TickEffects :=
  detectPhoneTransition cameraRecorderThis phoneDetected

/-- The clamp applied to the parsed AI score:
Math.max(0, Math.min(10, score)). -/
def clampScore (s : ℚ) : ℚ := max 0 (min 10 s)

/-- Math.floor(Math.random() * 4) + 5, the score when Gemini is not
configured. -/
def unavailableScore (rand : ℚ) : ℤ := ⌊rand * 4⌋ + 5

/-- Math.floor(Math.random() * 3) + 6, the score when the AI reply fails to
parse or validate. -/
def parseFallbackScore (rand : ℚ) : ℤ := ⌊rand * 3⌋ + 6

/-- Math.min(8, Math.max(4, Math.floor(wordCount / 10) + 4)), the
length-based score of the outer catch. -/
def lengthScore (wordCount : ℕ) : ℕ := min 8 (max 4 (wordCount / 10 + 4))

/-- The four code paths of the evaluate-answer handler that construct the
evaluation object. -/
inductive EvalBranch where
  | aiParsed (score : ℚ)
  | aiUnavailable (rand : ℚ)
  | parseFallback (rand : ℚ)
  | errorFallback (wordCount : ℕ)

/-- The score of the evaluation object pushed onto session.answers and
returned, by branch. -/
def storedScore : EvalBranch → ℚ
  | .aiParsed s => clampScore s
  | .aiUnavailable r => (unavailableScore r : ℚ)
  | .parseFallback r => (parseFallbackScore r : ℚ)
  | .errorFallback wc => (lengthScore wc : ℚ)

/-- Side condition of the model: Math.random() draws lie in [0, 1). -/
def validBranch : EvalBranch → Prop
  | .aiUnavailable r => 0 ≤ r ∧ r < 1
  | .parseFallback r => 0 ≤ r ∧ r < 1
  | _ => True

/-- The three fallback paths (everything except a parsed AI reply). -/
def isFallback : EvalBranch → Bool
  | .aiParsed _ => false
  | _ => true

/-- session.answers.push of the new evaluation score. -/
def pushEvaluation (answers : List ℚ) (b : EvalBranch) : List ℚ :=
  answers ++ [storedScore b]

/-- The integer edge test of the executable embedding coincides with the real
square-root formulation of the source: sqrt (gx^2 + gy^2) > 50 holds exactly
when gx*gx + gy*gy > 2500. -/
theorem isEdge_iff_sqrt_gt (img : ImageData) (x y : ℕ) :
    isEdge img x y = true ↔ 50 < magnitudeSpec img x y := by
  rw [isEdge, decide_eq_true_eq, magnitudeSpec,
    Real.lt_sqrt (by norm_num : (0 : ℝ) ≤ 50), magnitudeSq]
  constructor
  · intro h
    have h2 : ((2500 : ℤ) : ℝ) <
        ((gx img x y * gx img x y + gy img x y * gy img x y : ℤ) : ℝ) := by
      exact_mod_cast h
    push_cast at h2
    nlinarith [h2]
  · intro h
    have h2 : ((2500 : ℤ) : ℝ) <
        ((gx img x y * gx img x y + gy img x y * gy img x y : ℤ) : ℝ) := by
      push_cast
      nlinarith [h]
    exact_mod_cast h2

/-- The two edge counts agree on every frame. -/
theorem edgeCountSpec_eq (img : ImageData) : edgeCountSpec img = edgeCount img := by
  unfold edgeCountSpec edgeCount
  refine Finset.sum_congr rfl fun y _ => Finset.sum_congr rfl fun x _ => ?_
  rw [if_congr (Iff.symm (isEdge_iff_sqrt_gt img x y)) rfl rfl]

/-- If no interior pixel passes the edge test, the ratio is 0 and the band
test fails, so the detector answers false. -/
theorem detect_false_of_edgeCount_zero (img : ImageData) (h : edgeCount img = 0) :
    detectRectangularObject img = false := by
  rw [detectRectangularObject, decide_eq_false_iff_not, edgeRatio, h]
  push_cast
  rw [zero_div]
  rintro ⟨h1, -⟩
  norm_num at h1

/-- A frame narrower or shorter than 3 pixels has no interior pixel, so the
double loop body never runs. -/
theorem edgeCount_eq_zero_of_thin (img : ImageData)
    (h : img.width < 3 ∨ img.height < 3) : edgeCount img = 0 := by
  rcases h with h | h
  · have he : Finset.Ico 1 (img.width - 1) = ∅ := Finset.Ico_eq_empty (by omega)
    rw [edgeCount, he]
    simp
  · have he : Finset.Ico 1 (img.height - 1) = ∅ := Finset.Ico_eq_empty (by omega)
    rw [edgeCount, he]
    simp

/-- C1: for every frame of width W >= 1 and height H >= 1, the detector
returns present = (edgeRatio > 0.02) AND (edgeRatio < 0.15), where
edgeRatio = edgeCount / (W * H) with the full frame area as denominator and
edgeCount counts the interior pixels whose gradient magnitude
sqrt (gx^2 + gy^2) is strictly greater than 50. -/
theorem detect_eq_ratio_band (img : ImageData)
    (_hw : 1 ≤ img.width) (_hh : 1 ≤ img.height) :
    detectRectangularObject img = true ↔
      0.02 < edgeRatioSpec img ∧ edgeRatioSpec img < 0.15 := by
  have key : edgeRatioSpec img = ((edgeRatio img : ℚ) : ℝ) := by
    rw [edgeRatioSpec, edgeRatio, edgeCountSpec_eq]
    push_cast
    ring
  rw [detectRectangularObject, decide_eq_true_eq, key]
  simp only [gt_iff_lt]
  have e1 : (0.02 : ℚ) = 1 / 50 := by norm_num
  have e2 : (0.15 : ℚ) = 3 / 20 := by norm_num
  have e3 : (0.02 : ℝ) = 1 / 50 := by norm_num
  have e4 : (0.15 : ℝ) = 3 / 20 := by norm_num
  rw [e1, e2, e3, e4]
  constructor
  · rintro ⟨h1, h2⟩
    refine ⟨?_, ?_⟩
    · have hr : ((1 / 50 : ℚ) : ℝ) < (edgeRatio img : ℝ) := by exact_mod_cast h1
      push_cast at hr
      exact hr
    · have hr : (edgeRatio img : ℝ) < ((3 / 20 : ℚ) : ℝ) := by exact_mod_cast h2
      push_cast at hr
      exact hr
  · rintro ⟨h1, h2⟩
    refine ⟨?_, ?_⟩
    · have hr : ((1 / 50 : ℚ) : ℝ) < (edgeRatio img : ℝ) := by push_cast; exact h1
      exact_mod_cast hr
    · have hr : (edgeRatio img : ℝ) < ((3 / 20 : ℚ) : ℝ) := by push_cast; exact h2
      exact_mod_cast hr

/-- Witness for C1 at the concrete flat gray 10 by 10 frame. -/
theorem detect_eq_ratio_band_witness :
    1 ≤ gray10.width ∧ 1 ≤ gray10.height ∧
      (detectRectangularObject gray10 = true ↔
        0.02 < edgeRatioSpec gray10 ∧ edgeRatioSpec gray10 < 0.15) :=
  ⟨by decide, by decide,
    detect_eq_ratio_band gray10 (by decide) (by decide)⟩

/-- C3: the detector is total (the Lean embedding is a total function by
construction) and on degenerate frames with width 0 or height 0 it returns
false: the loops run zero iterations, edgeCount = 0, and the band test on
the resulting ratio fails. -/
theorem detect_degenerate_false (img : ImageData)
    (h : img.width = 0 ∨ img.height = 0) :
    detectRectangularObject img = false :=
  detect_false_of_edgeCount_zero img
    (edgeCount_eq_zero_of_thin img (by omega))

/-- Witness for C3 at a concrete zero-width frame. -/
theorem detect_degenerate_false_witness :
    (emptyFrame.width = 0 ∨ emptyFrame.height = 0) ∧
      detectRectangularObject emptyFrame = false :=
  ⟨Or.inl rfl, detect_degenerate_false emptyFrame (Or.inl rfl)⟩

/-- C9: for every frame with width < 3 or height < 3 the interior-pixel
loops execute zero iterations, so edgeCount = 0 and the detector returns
false. -/
theorem detect_thin_false (img : ImageData)
    (h : img.width < 3 ∨ img.height < 3) :
    edgeCount img = 0 ∧ detectRectangularObject img = false := by
  have hc := edgeCount_eq_zero_of_thin img h
  exact ⟨hc, detect_false_of_edgeCount_zero img hc⟩

/-- Witness for C9 at a concrete 2 by 5 frame. -/
theorem detect_thin_false_witness :
    (thin25.width < 3 ∨ thin25.height < 3) ∧
      (edgeCount thin25 = 0 ∧ detectRectangularObject thin25 = false) :=
  ⟨Or.inl (by decide), detect_thin_false thin25 (Or.inl (by decide))⟩

/-- Counterexample to C4 as stated: for the 3 by 3 frame frame3, the loops
do evaluate the single interior pixel (1, 1): edgeCount is 1, not 0, the
ratio 1/9 lies inside the (0.02, 0.15) band, and the detector returns true,
not false.  The loop bounds y < height - 1 and x < width - 1 admit
y = x = 1 when width = height = 3. -/
theorem detect_3x3_counterexample :
    frame3.width = 3 ∧ frame3.height = 3 ∧ edgeCount frame3 = 1 ∧
      detectRectangularObject frame3 = true := by
  have hc : edgeCount frame3 = 1 := by decide
  refine ⟨rfl, rfl, hc, ?_⟩
  rw [detectRectangularObject, decide_eq_true_eq, edgeRatio, hc,
    show frame3.width = 3 from rfl, show frame3.height = 3 from rfl]
  norm_num

/-- C4 amended: a 3 by 3 frame has exactly one interior pixel, the center
(1, 1); edgeCount is 1 or 0 according to the edge test there, and the
detector returns true exactly when the center passes the edge test, since
edgeCount = 1 gives edgeRatio = 1/9 which lies inside the band. -/
theorem detect_3x3 (img : ImageData)
    (hw : img.width = 3) (hh : img.height = 3) :
    edgeCount img = (if isEdge img 1 1 then 1 else 0) ∧
      detectRectangularObject img = isEdge img 1 1 := by
  have hc : edgeCount img = if isEdge img 1 1 then 1 else 0 := by
    rw [edgeCount, hw, hh, show (3 : ℕ) - 1 = 2 from rfl,
      show Finset.Ico (1 : ℕ) 2 = {1} from rfl,
      Finset.sum_singleton, Finset.sum_singleton]
  refine ⟨hc, ?_⟩
  cases he : isEdge img 1 1
  · rw [he] at hc
    rw [detectRectangularObject, edgeRatio, hc, hw, hh]
    rw [decide_eq_false_iff_not]
    norm_num
  · rw [he] at hc
    rw [detectRectangularObject, edgeRatio, hc, hw, hh]
    rw [decide_eq_true_eq]
    norm_num

/-- Witness for the amended C4 at the concrete frame frame3. -/
theorem detect_3x3_witness :
    frame3.width = 3 ∧ frame3.height = 3 ∧
      (edgeCount frame3 = (if isEdge frame3 1 1 then 1 else 0) ∧
        detectRectangularObject frame3 = isEdge frame3 1 1) :=
  ⟨rfl, rfl, detect_3x3 frame3 rfl rfl⟩

/-- C5: on a uniformly flat frame (the red channel of every pixel is the
same constant c; a frame whose pixels all have one identical color is the
special case where additionally the other channels agree), every gradient
is 0, so edgeCount = 0, edgeRatio = 0, and the detector returns false. -/
theorem detect_flat_false (img : ImageData) (c : ℕ)
    (hflat : ∀ i j, i < img.width → j < img.height →
      img.data ((j * img.width + i) * 4) = c) :
    edgeCount img = 0 ∧ edgeRatio img = 0 ∧
      detectRectangularObject img = false := by
  have hc : edgeCount img = 0 := by
    rw [edgeCount]
    refine Finset.sum_eq_zero fun y hy => Finset.sum_eq_zero fun x hx => ?_
    rw [Finset.mem_Ico] at hy hx
    have h1 := hflat (x - 1) (y - 1) (by omega) (by omega)
    have h2 := hflat (x + 1) (y - 1) (by omega) (by omega)
    have h3 := hflat (x - 1) y (by omega) (by omega)
    have h4 := hflat (x + 1) y (by omega) (by omega)
    have h5 := hflat (x - 1) (y + 1) (by omega) (by omega)
    have h6 := hflat (x + 1) (y + 1) (by omega) (by omega)
    have h7 := hflat x (y - 1) (by omega) (by omega)
    have h8 := hflat x (y + 1) (by omega) (by omega)
    have hgx : gx img x y = 0 := by
      rw [gx, h1, h2, h3, h4, h5, h6]
      ring
    have hgy : gy img x y = 0 := by
      rw [gy, h1, h7, h2, h5, h8, h6]
      ring
    have he : isEdge img x y = false := by
      rw [isEdge, magnitudeSq, hgx, hgy]
      rfl
    rw [he]
    rfl
  have hr : edgeRatio img = 0 := by
    rw [edgeRatio, hc]
    push_cast
    rw [zero_div]
  exact ⟨hc, hr, detect_false_of_edgeCount_zero img hc⟩

/-- Witness for C5 at the concrete 10 by 10 flat gray frame: every pixel is
RGB (128, 128, 128), and the detector returns false. -/
theorem detect_flat_false_witness :
    (∀ i j, i < gray10.width → j < gray10.height →
      gray10.data ((j * gray10.width + i) * 4) = 128) ∧
      (edgeCount gray10 = 0 ∧ edgeRatio gray10 = 0 ∧
        detectRectangularObject gray10 = false) := by
  have hflat : ∀ i j, i < gray10.width → j < gray10.height →
      gray10.data ((j * gray10.width + i) * 4) = 128 := by
    intro i j _ _
    show (if ((j * 10 + i) * 4) % 4 = 3 then 255 else 128) = 128
    rw [Nat.mul_mod_left]
    rfl
  exact ⟨hflat, detect_flat_false gray10 128 hflat⟩

/-- Frame-agreement helper shared by the determinism and noninterference
claims: the detector reads only the channel-0 byte of in-range pixels, so
two frames of equal dimensions whose red channels agree produce the same
edge count and the same answer. -/
theorem detect_congr_red (img1 img2 : ImageData)
    (hw : img1.width = img2.width) (hh : img1.height = img2.height)
    (hred : ∀ i j, i < img1.width → j < img1.height →
      img1.data ((j * img1.width + i) * 4) = img2.data ((j * img2.width + i) * 4)) :
    edgeCount img1 = edgeCount img2 ∧
      detectRectangularObject img1 = detectRectangularObject img2 := by
  have hred2 : ∀ i j, i < img1.width → j < img1.height →
      img1.data ((j * img1.width + i) * 4) = img2.data ((j * img1.width + i) * 4) := by
    intro i j hi hj
    have h := hred i j hi hj
    rwa [← hw] at h
  have hcount : edgeCount img1 = edgeCount img2 := by
    rw [edgeCount, edgeCount, ← hw, ← hh]
    refine Finset.sum_congr rfl fun y hy => Finset.sum_congr rfl fun x hx => ?_
    rw [Finset.mem_Ico] at hy hx
    have hgx : gx img1 x y = gx img2 x y := by
      rw [gx, gx, ← hw,
        hred2 (x - 1) (y - 1) (by omega) (by omega),
        hred2 (x + 1) (y - 1) (by omega) (by omega),
        hred2 (x - 1) y (by omega) (by omega),
        hred2 (x + 1) y (by omega) (by omega),
        hred2 (x - 1) (y + 1) (by omega) (by omega),
        hred2 (x + 1) (y + 1) (by omega) (by omega)]
    have hgy : gy img1 x y = gy img2 x y := by
      rw [gy, gy, ← hw,
        hred2 (x - 1) (y - 1) (by omega) (by omega),
        hred2 x (y - 1) (by omega) (by omega),
        hred2 (x + 1) (y - 1) (by omega) (by omega),
        hred2 (x - 1) (y + 1) (by omega) (by omega),
        hred2 x (y + 1) (by omega) (by omega),
        hred2 (x + 1) (y + 1) (by omega) (by omega)]
    rw [isEdge, isEdge, magnitudeSq, magnitudeSq, hgx, hgy]
  refine ⟨hcount, ?_⟩
  rw [detectRectangularObject, detectRectangularObject,
    edgeRatio, edgeRatio, hcount, hw, hh]

/-- C6: the detector is deterministic and stateless.  In the embedding it is
a function of the frame alone, so purity holds by construction; the
substantive content proved here is that the answer depends only on the bytes
of the frame buffer: two frames with identical dimensions whose buffers
agree on every in-range byte index receive identical answers. -/
theorem detect_deterministic (img1 img2 : ImageData)
    (hw : img1.width = img2.width) (hh : img1.height = img2.height)
    (hdata : ∀ n, n < img1.width * img1.height * 4 → img1.data n = img2.data n) :
    detectRectangularObject img1 = detectRectangularObject img2 := by
  refine (detect_congr_red img1 img2 hw hh ?_).2
  intro i j hi hj
  have h1 : j * img1.width + i < img1.width * img1.height := by
    calc j * img1.width + i < j * img1.width + img1.width := by omega
      _ = (j + 1) * img1.width := by ring
      _ ≤ img1.height * img1.width := Nat.mul_le_mul_right _ (by omega)
      _ = img1.width * img1.height := Nat.mul_comm _ _
  rw [← hw]
  exact hdata _ (by omega)

/-- Witness for C6 at two concrete bit-identical frames. -/
theorem detect_deterministic_witness :
    dupA.width = dupB.width ∧ dupA.height = dupB.height ∧
      (∀ n, n < dupA.width * dupA.height * 4 → dupA.data n = dupB.data n) ∧
      detectRectangularObject dupA = detectRectangularObject dupB := by
  have hdata : ∀ n, n < dupA.width * dupA.height * 4 → dupA.data n = dupB.data n := by
    intro n hn
    have h64 : n < 64 := hn
    show (7 : ℕ) = if n < 64 then 7 else 9
    rw [if_pos h64]
  exact ⟨rfl, rfl, hdata, detect_deterministic dupA dupB rfl rfl hdata⟩

/-- C8: noninterference of the green, blue, and alpha channels: for frames
of equal dimensions whose red channels agree at every pixel, the detector
returns the same answer regardless of the other channels. -/
theorem detect_red_noninterference (img1 img2 : ImageData)
    (hw : img1.width = img2.width) (hh : img1.height = img2.height)
    (hred : ∀ i j, i < img1.width → j < img1.height →
      img1.data ((j * img1.width + i) * 4) = img2.data ((j * img2.width + i) * 4)) :
    detectRectangularObject img1 = detectRectangularObject img2 :=
  (detect_congr_red img1 img2 hw hh hred).2

/-- Witness for C8 at two concrete frames differing in every non-red byte. -/
theorem detect_red_noninterference_witness :
    redOnlyA.width = redOnlyB.width ∧ redOnlyA.height = redOnlyB.height ∧
      (∀ i j, i < redOnlyA.width → j < redOnlyA.height →
        redOnlyA.data ((j * redOnlyA.width + i) * 4) =
          redOnlyB.data ((j * redOnlyB.width + i) * 4)) ∧
      detectRectangularObject redOnlyA = detectRectangularObject redOnlyB := by
  have hred : ∀ i j, i < redOnlyA.width → j < redOnlyA.height →
      redOnlyA.data ((j * redOnlyA.width + i) * 4) =
        redOnlyB.data ((j * redOnlyB.width + i) * 4) := by
    intro i j _ _
    show (if ((j * 4 + i) * 4) % 4 = 0 then 100 else 0) =
      (if ((j * 4 + i) * 4) % 4 = 0 then 100 else 55)
    rw [Nat.mul_mod_left]
    rfl
  exact ⟨rfl, rfl, hred, detect_red_noninterference redOnlyA redOnlyB rfl rfl hred⟩

/-!
Caller of the detector: the detectPhone tick in CameraRecorder.

The source compares the fresh detector result with this.phoneDetected:

  const phoneDetected = detectRectangularObject(imageData);
  if (phoneDetected && !this.phoneDetected) {
    setPhoneDetected(true); setShowPhoneToast(true);
    setTimeout(() => setShowPhoneToast(false), 5000);
  } else if (!phoneDetected && this.phoneDetected) {
    setPhoneDetected(false);
  }

detectPhone is an arrow function inside the CameraRecorder function
component of an ES module, so the lexically captured value of this is
undefined, and reading a property of undefined throws a TypeError.  (The
local const phoneDetected also shadows the phoneDetected useState value, so
no stored previous value is consulted at all.)  We embed the member read as
a fallible operation on an optional receiver and instantiate the receiver
with the value the source actually has: none.
-/

/-- C7 is a code bug: with either detector result, the tick evaluates
this.phoneDetected on an undefined receiver and throws a TypeError, so the
edge-triggered notification logic (fire exactly on a false-to-true
transition of a stored previous value, hide the toast after 5000 ms) never
runs.  With the intended receiver (some state) the transition would behave
as the claim says, which the second conjunct records. -/
theorem detectPhoneTick_throws :
    (∀ b, detectPhoneTick b =
      Except.error "TypeError: cannot read phoneDetected of undefined") ∧
      (∀ prev current,
        detectPhoneTransition (some ⟨prev⟩) current =
          Except.ok ⟨if current ∧ ¬prev then some true
              else if ¬current ∧ prev then some false else none,
            current ∧ ¬prev,
            if current ∧ ¬prev then 5000 else 0⟩) := by
  constructor
  · intro b
    cases b <;> rfl
  · intro prev current
    cases prev <;> cases current <;> rfl

/-!
POST /api/evaluate-answer handler: every evaluation pushed onto
session.answers and sent back as the response carries a score built on one
of four code paths:
  1. Gemini unavailable: Math.floor(Math.random() * 4) + 5;
  2. AI reply parsed: evaluation.score = Math.max(0, Math.min(10, evaluation.score));
  3. JSON parse or shape validation failed: Math.floor(Math.random() * 3) + 6;
  4. outer catch with a known session:
     Math.min(8, Math.max(4, Math.floor(wordCount / 10) + 4)).
Math.random() draws from [0, 1); it is modelled as an arbitrary rational in
that interval.  Math.floor on a nonnegative quotient of naturals is natural
division.
-/

/-- C10: every evaluation stored into the answers list (and returned) has a
score in [0, 10]: the parsed AI score is clamped by max(0, min(10, score))
and each fallback branch builds a score inside [4, 8]. -/
theorem evaluateAnswer_score_range (b : EvalBranch) (hb : validBranch b)
    (prev : List ℚ) (hprev : ∀ q ∈ prev, 0 ≤ q ∧ q ≤ 10) :
    (∀ q ∈ pushEvaluation prev b, 0 ≤ q ∧ q ≤ 10) ∧
      (isFallback b = true → 4 ≤ storedScore b ∧ storedScore b ≤ 8) := by
  have hcore : (0 ≤ storedScore b ∧ storedScore b ≤ 10) ∧
      (isFallback b = true → 4 ≤ storedScore b ∧ storedScore b ≤ 8) := by
    cases b with
    | aiParsed s =>
      refine ⟨⟨le_max_left 0 _, ?_⟩, ?_⟩
      · exact max_le (by norm_num) (min_le_left 10 s)
      · intro h
        simp [isFallback] at h
    | aiUnavailable r =>
      obtain ⟨h0, h1⟩ := hb
      have hf0 : (0 : ℤ) ≤ ⌊r * 4⌋ := Int.floor_nonneg.mpr (by positivity)
      have hf1 : ⌊r * 4⌋ < 4 := Int.floor_lt.mpr (by push_cast; nlinarith)
      have hz : (0 : ℤ) ≤ unavailableScore r ∧ unavailableScore r ≤ 10 ∧
          4 ≤ unavailableScore r ∧ unavailableScore r ≤ 8 := by
        unfold unavailableScore
        omega
      refine ⟨⟨?_, ?_⟩, fun _ => ⟨?_, ?_⟩⟩ <;> simp only [storedScore]
      · exact_mod_cast hz.1
      · exact_mod_cast hz.2.1
      · exact_mod_cast hz.2.2.1
      · exact_mod_cast hz.2.2.2
    | parseFallback r =>
      obtain ⟨h0, h1⟩ := hb
      have hf0 : (0 : ℤ) ≤ ⌊r * 3⌋ := Int.floor_nonneg.mpr (by positivity)
      have hf1 : ⌊r * 3⌋ < 3 := Int.floor_lt.mpr (by push_cast; nlinarith)
      have hz : (0 : ℤ) ≤ parseFallbackScore r ∧ parseFallbackScore r ≤ 10 ∧
          4 ≤ parseFallbackScore r ∧ parseFallbackScore r ≤ 8 := by
        unfold parseFallbackScore
        omega
      refine ⟨⟨?_, ?_⟩, fun _ => ⟨?_, ?_⟩⟩ <;> simp only [storedScore]
      · exact_mod_cast hz.1
      · exact_mod_cast hz.2.1
      · exact_mod_cast hz.2.2.1
      · exact_mod_cast hz.2.2.2
    | errorFallback wc =>
      have hz : 4 ≤ lengthScore wc ∧ lengthScore wc ≤ 8 := by
        unfold lengthScore
        omega
      refine ⟨⟨?_, ?_⟩, fun _ => ⟨?_, ?_⟩⟩ <;> simp only [storedScore]
      · exact_mod_cast Nat.zero_le _
      · exact_mod_cast le_trans hz.2 (by norm_num)
      · exact_mod_cast hz.1
      · exact_mod_cast hz.2
  refine ⟨?_, hcore.2⟩
  intro q hq
  rcases List.mem_append.mp hq with h | h
  · exact hprev q h
  · rw [List.mem_singleton] at h
    rw [h]
    exact hcore.1

/-- Witness for C10 on the Gemini-unavailable branch with the draw 1/2 and
one previously stored score of 3. -/
theorem evaluateAnswer_score_range_witness :
    validBranch (EvalBranch.aiUnavailable (1 / 2)) ∧
      (∀ q ∈ [(3 : ℚ)], 0 ≤ q ∧ q ≤ 10) ∧
      ((∀ q ∈ pushEvaluation [(3 : ℚ)] (EvalBranch.aiUnavailable (1 / 2)),
          0 ≤ q ∧ q ≤ 10) ∧
        (isFallback (EvalBranch.aiUnavailable (1 / 2)) = true →
          4 ≤ storedScore (EvalBranch.aiUnavailable (1 / 2)) ∧
            storedScore (EvalBranch.aiUnavailable (1 / 2)) ≤ 8)) := by
  have hb : validBranch (EvalBranch.aiUnavailable (1 / 2)) :=
    ⟨by norm_num, by norm_num⟩
  have hprev : ∀ q ∈ [(3 : ℚ)], 0 ≤ q ∧ q ≤ 10 := by
    intro q hq
    rw [List.mem_singleton] at hq
    rw [hq]
    exact ⟨by norm_num, by norm_num⟩
  exact ⟨hb, hprev, evaluateAnswer_score_range _ hb _ hprev⟩

/-- C2: at every interior pixel the gradients the detector uses are the
3 by 3 Sobel formulas applied to the raw red-channel bytes of the eight
neighboring pixels: the flat-buffer reads of the source coincide term for
term with the specification formulas over the accessor P, which reads
channel 0 only.  The per-pixel grayscale mean (definition gray, which reads
channels 0, 1 and 2) occurs in neither gradient; that the detector result
is independent of the non-red channels is proved separately as
detect_red_noninterference. -/
theorem sobel_raw_red_channel (img : ImageData) (x y : ℕ) :
    gx img x y = sobelGxSpec img x y ∧ gy img x y = sobelGySpec img x y :=
  ⟨rfl, rfl⟩
